import Mathlib

/-!
Shallow embedding of the geospatial game-state engine of the webAR project
(src/App.tsx, src/utils/geo.ts, constants), together with proofs about the
properties stated in its specification.

Modelling conventions:
* JavaScript floating-point numbers are modelled as `ℝ` where trigonometry is
  involved (geo math, positions, headings) and as `ℚ` where the code only
  compares and adds finitely representable literals (accuracies, speeds,
  reward weights, random rolls).
* `Math.atan2`, `Math.floor` and the JS `%` remainder are modelled explicitly
  (`jsAtan2`, `Int.floor`, `jsMod`).
* `Date.now()` timestamps and millisecond durations are `ℕ` parameters.
* React `useState`/`useRef` fields of the `App` component are collected into a
  single `Session` structure; each handler of the component becomes a function
  `Session → Session`.  A pending `setInterval`/`setTimeout` is modelled as a
  flag (or record) in the session; its callback is a separate "fire" function.
  `handleEvacuate` never stores the id of the timeout it creates, and no
  `clearTimeout` exists anywhere in App.tsx, so `handleReset` leaves the
  pending-evacuation flag untouched: this is faithful to the source.
* `Math.random()` draws are passed in as explicit parameters in `[0, 1)`.
-/

namespace WebAR

/-- Geographic coordinate, `src/types.ts` (`{latitude, longitude}` degrees). -/
structure Coordinates where
  latitude : ℝ
  longitude : ℝ

/-- `deg2rad` from `src/utils/geo.ts`: `deg * (Math.PI / 180)`. -/
noncomputable def deg2rad (deg : ℝ) : ℝ := deg * (Real.pi / 180)

/-- `EARTH_RADIUS_KM = 6371` from `src/utils/geo.ts`. -/
def EARTH_RADIUS_KM : ℝ := 6371

/-- JS `Math.trunc`-style integer part (rounds toward zero), the integer used
by the JS `%` remainder. -/
noncomputable def jsTrunc (x : ℝ) : ℤ := if 0 ≤ x then ⌊x⌋ else ⌈x⌉

/-- The JS `%` remainder operator on numbers: `a - b * trunc (a / b)`. -/
noncomputable def jsMod (a b : ℝ) : ℝ := a - b * jsTrunc (a / b)

/-- `Math.atan2 y x`: the angle of the point `(x, y)` in `(-π, π]`, with the
JS convention `atan2 0 0 = 0`. -/
noncomputable def jsAtan2 (y x : ℝ) : ℝ :=
  if 0 < x then Real.arctan (y / x)
  else if x < 0 then
    (if 0 ≤ y then Real.arctan (y / x) + Real.pi else Real.arctan (y / x) - Real.pi)
  else
    (if 0 < y then Real.pi / 2 else if y < 0 then -(Real.pi / 2) else 0)

/-- The haversine intermediate `a` of `getDistanceFromLatLonInMeters`
(`src/utils/geo.ts` lines 5-16). -/
noncomputable def haversineTerm (pos1 pos2 : Coordinates) : ℝ :=
  Real.sin (deg2rad (pos2.latitude - pos1.latitude) / 2) *
      Real.sin (deg2rad (pos2.latitude - pos1.latitude) / 2) +
    Real.cos (deg2rad pos1.latitude) * Real.cos (deg2rad pos2.latitude) *
      Real.sin (deg2rad (pos2.longitude - pos1.longitude) / 2) *
      Real.sin (deg2rad (pos2.longitude - pos1.longitude) / 2)

/-- `getDistanceFromLatLonInMeters` from `src/utils/geo.ts`: haversine
great-circle distance in meters, radius 6371 km. -/
noncomputable def getDistanceFromLatLonInMeters (pos1 pos2 : Coordinates) : ℝ :=
  EARTH_RADIUS_KM *
      (2 * jsAtan2 (Real.sqrt (haversineTerm pos1 pos2))
        (Real.sqrt (1 - haversineTerm pos1 pos2))) * 1000

/-- The `y` argument of `atan2` in `getBearing` (`src/utils/geo.ts`). -/
noncomputable def bearingY (start dest : Coordinates) : ℝ :=
  Real.sin (deg2rad dest.longitude - deg2rad start.longitude) *
    Real.cos (deg2rad dest.latitude)

/-- The `x` argument of `atan2` in `getBearing` (`src/utils/geo.ts`). -/
noncomputable def bearingX (start dest : Coordinates) : ℝ :=
  Real.cos (deg2rad start.latitude) * Real.sin (deg2rad dest.latitude) -
    Real.sin (deg2rad start.latitude) * Real.cos (deg2rad dest.latitude) *
      Real.cos (deg2rad dest.longitude - deg2rad start.longitude)

/-- `getBearing` from `src/utils/geo.ts`: initial bearing in degrees,
normalised by `(brng + 360) % 360`. -/
noncomputable def getBearing (start dest : Coordinates) : ℝ :=
  jsMod (jsAtan2 (bearingY start dest) (bearingX start dest) * 180 / Real.pi + 360) 360

/-- `gpsToLocalVector` from `src/utils/geo.ts`: projects `target` onto the
local plane anchored at `origin`; `x = sin(bearing) * dist`,
`z = -cos(bearing) * dist`, returned as `[x, 0, z]`. -/
noncomputable def gpsToLocalVector (origin target : Coordinates) : ℝ × ℝ × ℝ :=
  (Real.sin (deg2rad (getBearing origin target)) * getDistanceFromLatLonInMeters origin target,
   0,
   -Real.cos (deg2rad (getBearing origin target)) * getDistanceFromLatLonInMeters origin target)

/-- The `endLatRad` of `movePoint` (`src/utils/geo.ts` lines 77-104). -/
noncomputable def movePointLatRad (start : Coordinates) (distanceMeters bearing : ℝ) : ℝ :=
  Real.arcsin
    (Real.sin (deg2rad start.latitude) * Real.cos (distanceMeters / 1000 / EARTH_RADIUS_KM) +
      Real.cos (deg2rad start.latitude) * Real.sin (distanceMeters / 1000 / EARTH_RADIUS_KM) *
        Real.cos (deg2rad bearing))

/-- The `endLonRad` of `movePoint` (`src/utils/geo.ts` lines 77-104). -/
noncomputable def movePointLonRad (start : Coordinates) (distanceMeters bearing : ℝ) : ℝ :=
  deg2rad start.longitude +
    jsAtan2
      (Real.sin (deg2rad bearing) * Real.sin (distanceMeters / 1000 / EARTH_RADIUS_KM) *
        Real.cos (deg2rad start.latitude))
      (Real.cos (distanceMeters / 1000 / EARTH_RADIUS_KM) -
        Real.sin (deg2rad start.latitude) * Real.sin (movePointLatRad start distanceMeters bearing))

/-- `movePoint` from `src/utils/geo.ts`: spherical destination-point
projection, returning degrees. -/
noncomputable def movePoint (start : Coordinates) (distanceMeters bearing : ℝ) : Coordinates :=
  ⟨movePointLatRad start distanceMeters bearing * 180 / Real.pi,
   movePointLonRad start distanceMeters bearing * 180 / Real.pi⟩

/-- `generateRandomNode` from `src/utils/geo.ts`, with the two `Math.random()`
draws passed as `r1 r2 ∈ [0,1)`. -/
noncomputable def generateRandomNode (center : Coordinates) (heading minDist maxDist r1 r2 : ℝ) :
    Coordinates :=
  movePoint center (minDist + r1 * (maxDist - minDist))
    (jsMod (heading + (r2 - 0.5) * 120 + 360) 360)

/-! ### Data model (`src/types.ts`) -/

/-- `GameState` enum from `src/types.ts`. -/
inductive GameState where
  | IDLE | OUTDOOR_SEARCH | CAPTURE_READY | CAPTURING | CARRYING
  | EVAC_READY | EVAC_ANIM | RESULT
  deriving DecidableEq, Repr

/-- `NodeType` enum from `src/types.ts`. -/
inductive NodeType where
  | JUNCTION | OPEN_SPACE | EDGE
  deriving DecidableEq, Repr

/-- `RewardTier` enum from `src/types.ts`. -/
inductive RewardTier where
  | BASIC | ADVANCED | CORE
  deriving DecidableEq, Repr

/-- `GameNode` interface from `src/types.ts`. -/
structure GameNode where
  id : String
  type : NodeType
  tier : RewardTier
  geoPosition : Coordinates
  position : ℝ × ℝ × ℝ
  captured : Bool
  discovered : Bool

/-- `Companion` interface from `src/types.ts`. -/
structure Companion where
  id : String
  tier : RewardTier
  offset : ℝ × ℝ × ℝ

/-- `GameStats` interface from `src/types.ts` (times in ms, distance in m). -/
structure GameStats where
  startTime : ℕ
  distanceWalked : ℝ
  rewardsCollected : ℕ
  outdoorTimeMs : ℕ

/-- `RewardRecord` interface from `src/types.ts`. -/
structure RewardRecord where
  id : String
  type : NodeType
  tier : RewardTier

/-! ### Configuration constants (the current `constants.ts` of the repo) -/

def SPAWN_RADIUS_MIN : ℝ := 20
def SPAWN_RADIUS_MAX : ℝ := 80
def DISCOVER_RADIUS : ℝ := 18
def CAPTURE_RADIUS : ℝ := 10
def HOME_RADIUS : ℝ := 20
def CAPTURE_TIME_BASIC_MS : ℕ := 1500
def CAPTURE_TIME_ADVANCED_MS : ℕ := 2200
def CAPTURE_TIME_CORE_MS : ℕ := 2600
def EVAC_DURATION_MS : ℕ := 4000
def RETICLE_ANGLE_DEG : ℝ := 18
def OUTDOOR_ACCURACY_MAX : ℚ := 30
def INDOOR_ACCURACY_MIN : ℚ := 50
def INDOOR_HOLD_MS : ℕ := 5000
def COMPANION_DISTANCE_MIN : ℝ := 1.2
def COMPANION_DISTANCE_MAX : ℝ := 2.2

/-- Modelled from the spec: the `USE_FAKE_AR` flag is imported by `App.tsx`
but its declaration is missing from the sources under `src/`.  The
specification describes only the real-sensor production path (its
outdoor-detection formula has no fake-accuracy fallback, and the analogous
`USE_MOCK_GPS` constant present in the repo is `false`, "not used in prod"),
so the flag is modelled as `false`. -/
def USE_FAKE_AR : Bool := false

/-! ### Capture timer & reward model (`src/App.tsx` lines 116-158) -/

/-- `getCaptureDurationMs` from `src/App.tsx`. -/
def getCaptureDurationMs : RewardTier → ℕ
  | RewardTier.ADVANCED => CAPTURE_TIME_ADVANCED_MS
  | RewardTier.CORE => CAPTURE_TIME_CORE_MS
  | RewardTier.BASIC => CAPTURE_TIME_BASIC_MS

/-- The `advancedWeight` of `rollRewardTier` (`src/App.tsx` lines 136-149):
baseline 0.2, bumped by distance/duration/companion thresholds, clamped
to 0.6. -/
def advancedWeight (distance durationMin : ℚ) (companionsCount : ℕ) : ℚ :=
  min
    (0.2 + (if 200 < distance then 0.1 else 0) + (if 600 < distance then 0.1 else 0) +
      (if 5 < durationMin then 0.1 else 0) + (if 3 ≤ companionsCount then 0.1 else 0))
    0.6

/-- The `coreWeight` of `rollRewardTier` (`src/App.tsx` lines 137-150):
baseline 0.05, bumped by thresholds, clamped to 0.3. -/
def coreWeight (distance durationMin : ℚ) (companionsCount : ℕ) : ℚ :=
  min
    (0.05 + (if 600 < distance then 0.05 else 0) + (if 10 < durationMin then 0.05 else 0) +
      (if 5 ≤ companionsCount then 0.05 else 0))
    0.3

/-- The `basicWeight` of `rollRewardTier` (`src/App.tsx` line 151):
`Math.max(0.1, 1 - advancedWeight - coreWeight)`. -/
def basicWeight (distance durationMin : ℚ) (companionsCount : ℕ) : ℚ :=
  max 0.1 (1 - advancedWeight distance durationMin companionsCount -
    coreWeight distance durationMin companionsCount)

/-- `rollRewardTier` from `src/App.tsx` lines 128-158, with the
`Math.random()` draw passed as `roll` and the snapshot of
`distanceWalked` / session duration (minutes) / companion count passed
explicitly. -/
def rollRewardTier (roll distance durationMin : ℚ) (companionsCount : ℕ) : RewardTier :=
  if roll < coreWeight distance durationMin companionsCount then RewardTier.CORE
  else if roll < coreWeight distance durationMin companionsCount +
      advancedWeight distance durationMin companionsCount then RewardTier.ADVANCED
  else if roll < coreWeight distance durationMin companionsCount +
      advancedWeight distance durationMin companionsCount +
      basicWeight distance durationMin companionsCount then RewardTier.BASIC
  else RewardTier.BASIC

/-! ### Sensor fusion (`src/App.tsx` `handleLocationUpdate`, lines 438-504) -/

/-- `accuracyValue` of `handleLocationUpdate` (line 440):
`USE_FAKE_AR && accuracyRaw === null ? 12 : accuracyRaw`. -/
def accuracyValueOf (accuracyRaw : Option ℚ) : Option ℚ :=
  if USE_FAKE_AR ∧ accuracyRaw = none then some 12 else accuracyRaw

/-- `speedValue` of `handleLocationUpdate` (line 441). -/
def speedValueOf (speedRaw : Option ℚ) : Option ℚ :=
  if USE_FAKE_AR ∧ speedRaw = none then some 0.5 else speedRaw

/-- `outdoorDetected` of `handleLocationUpdate` (lines 446-449):
`accuracyValue !== null && accuracyValue <= OUTDOOR_ACCURACY_MAX &&
(hasHeading || (speedValue !== null && speedValue > 0.3))`. -/
def outdoorDetected (accuracyValue : Option ℚ) (hasHeading : Bool) (speedValue : Option ℚ) :
    Bool :=
  match accuracyValue with
  | none => false
  | some a =>
    decide (a ≤ OUTDOOR_ACCURACY_MAX) &&
      (hasHeading ||
        (match speedValue with
         | none => false
         | some sp => decide ((0.3 : ℚ) < sp)))

/-- `outdoorActive` of `handleLocationUpdate` (lines 451-455): `manualHome`
forces `false`, else `manualOutdoor` forces `true`, else the detected
signal. -/
def outdoorActive (manualHome manualOutdoor detected : Bool) : Bool :=
  if manualHome then false else if manualOutdoor then true else detected

/-- JS truthiness of `!indoorStartRef.current` where the ref holds
`number | null`: `null` and `0` are falsy. -/
def indoorStartNotSet : Option ℕ → Bool
  | none => true
  | some t => t = 0

/-- The update of `indoorStartRef` in `handleLocationUpdate` (lines 495-499),
for one sample: `cand` is the `indoorCandidate` boolean of the sample
(`distToHome < HOME_RADIUS && accuracyValue !== null &&
accuracyValue >= INDOOR_ACCURACY_MIN`), `now` its timestamp. -/
def indoorStep (manualHome : Bool) (start : Option ℕ) (now : ℕ) (cand : Bool) : Option ℕ :=
  if !manualHome && cand then (if indoorStartNotSet start then some now else start)
  else if !cand then none
  else start

/-- `indoorDetected` of `handleLocationUpdate` (lines 501-503), computed from
the already-updated `indoorStartRef` value. -/
def indoorDetectedAt (manualHome : Bool) (start : Option ℕ) (now : ℕ) : Bool :=
  manualHome ||
    (match start with
     | none => false
     | some t => decide (INDOOR_HOLD_MS ≤ now - t))

/-- Runs the indoor-debounce logic over a list of `(timestamp, candidate)`
samples, returning the `indoorDetected` value observed at each sample. -/
def indoorTrace (manualHome : Bool) (start : Option ℕ) : List (ℕ × Bool) → List Bool
  | [] => []
  | (now, cand) :: rest =>
    indoorDetectedAt manualHome (indoorStep manualHome start now cand) now ::
      indoorTrace manualHome (indoorStep manualHome start now cand) rest

/-- The final `indoorStartRef` value after a list of samples. -/
def indoorFinal (manualHome : Bool) (start : Option ℕ) : List (ℕ × Bool) → Option ℕ
  | [] => start
  | (now, cand) :: rest => indoorFinal manualHome (indoorStep manualHome start now cand) rest

/-! ### Stat accumulation (`src/App.tsx` lines 467-484) -/

/-- The jitter-gated distance accumulation of `handleLocationUpdate`
(lines 467-484, distance part): returns the new `lastPosRef` anchor and
the new `distanceWalked`. A delta of at most 0.5 m is discarded and the
anchor is left in place. -/
noncomputable def statsDistanceStep (lastPos : Option Coordinates) (distanceWalked : ℝ)
    (newPos : Coordinates) : Option Coordinates × ℝ :=
  match lastPos with
  | some lp =>
    if 0.5 < getDistanceFromLatLonInMeters lp newPos then
      (some newPos, distanceWalked + getDistanceFromLatLonInMeters lp newPos)
    else (some lp, distanceWalked)
  | none => (some newPos, distanceWalked)

/-! ### Session state (the `useState`/`useRef` fields of `App`) -/

/-- A pending capture `setInterval` created by `startCapture`
(`src/App.tsx` lines 626-636): the closure captures the target node, the
start timestamp and the tier-dependent duration. -/
structure CaptureTimer where
  target : GameNode
  startTime : ℕ
  duration : ℕ

/-- The session state of the `App` component: its `useState` fields and the
mutable refs that drive the game logic, plus one flag per anonymous pending
timer (the result timeout of `handleEvacuate`, the carry timeout of `completeCapture`,
the fake-movement interval). -/
structure Session where
  gameState : GameState
  nodes : List GameNode
  companions : List Companion
  rewardLog : List RewardRecord
  stats : GameStats
  message : String
  capturingId : Option String
  captureProgress : ℚ
  reticlePulseKey : ℕ
  evacStartTime : Option ℕ
  currentPos : Option Coordinates
  startPos : Option Coordinates
  heading : ℝ
  headingAvailable : Bool
  isOutdoor : Bool
  isIndoor : Bool
  manualOutdoor : Bool
  manualHome : Bool
  isDebugMode : Bool
  gpsAccuracy : Option ℚ
  gpsSpeed : Option ℚ
  lastPos : Option Coordinates
  lastSpawnPos : Option Coordinates
  indoorStart : Option ℕ
  lastOutdoorTick : Option ℕ
  dismissEvacUntil : ℕ
  captureTimer : Option CaptureTimer
  pendingEvac : Bool
  pendingCarry : Bool
  fakeLoop : Bool
  watchActive : Bool

/-! ### Interaction logic (`src/App.tsx` lines 160-166, 583-785) -/

/-- `isTargetInReticle` from `src/App.tsx` lines 160-166: bypassed (always
true) when no heading fix was ever obtained; otherwise the angular
difference `|((bearing - heading + 540) % 360) - 180|` must be at most
`RETICLE_ANGLE_DEG`. -/
def isTargetInReticle (headingAvailable : Bool) (headingDeg : ℝ) (node : GameNode)
    (pos : Coordinates) : Prop :=
  headingAvailable = false ∨
    |jsMod (getBearing pos node.geoPosition - headingDeg + 540) 360 - 180| ≤ RETICLE_ANGLE_DEG

/-- The capture-eligibility predicate shared by `startCapture` (lines
615-620), `activeNode` (lines 779-785) and the phase effect (lines 589-596):
discovered, not captured, within `CAPTURE_RADIUS`, inside the reticle. -/
def captureEligible (headingAvailable : Bool) (headingDeg : ℝ) (pos : Coordinates)
    (n : GameNode) : Prop :=
  n.discovered = true ∧ n.captured = false ∧
    getDistanceFromLatLonInMeters pos n.geoPosition < CAPTURE_RADIUS ∧
    isTargetInReticle headingAvailable headingDeg n pos

open Classical in
/-- `nodes.find(...)` as used by `startCapture` and `activeNode`: the FIRST
node of the list satisfying the eligibility predicate. -/
noncomputable def findEligibleNode (headingAvailable : Bool) (headingDeg : ℝ)
    (pos : Coordinates) : List GameNode → Option GameNode
  | [] => none
  | n :: rest =>
    if captureEligible headingAvailable headingDeg pos n then some n
    else findEligibleNode headingAvailable headingDeg pos rest

/-- The running-minimum condition of the `forEach` loop of the phase effect
(`src/App.tsx` lines 589-596): `minDist` starts at `Infinity`, modelled as
`none`. -/
def ltMinDist (d : ℝ) : Option ℝ → Prop
  | none => True
  | some m => d < m

open Classical in
/-- The `forEach` accumulation of the capture-eligibility effect
(`src/App.tsx` lines 586-596): tracks the closest eligible node. -/
noncomputable def nearestEligibleAux (headingAvailable : Bool) (headingDeg : ℝ)
    (pos : Coordinates) : List GameNode → Option GameNode → Option ℝ → Option GameNode
  | [], best, _ => best
  | n :: rest, best, minDist =>
    if n.discovered = true ∧ n.captured = false ∧
        getDistanceFromLatLonInMeters pos n.geoPosition < CAPTURE_RADIUS ∧
        isTargetInReticle headingAvailable headingDeg n pos ∧
        ltMinDist (getDistanceFromLatLonInMeters pos n.geoPosition) minDist then
      nearestEligibleAux headingAvailable headingDeg pos rest (some n)
        (some (getDistanceFromLatLonInMeters pos n.geoPosition))
    else nearestEligibleAux headingAvailable headingDeg pos rest best minDist

/-- The `closest` node computed by the capture-eligibility effect. -/
noncomputable def nearestEligible (headingAvailable : Bool) (headingDeg : ℝ) (pos : Coordinates)
    (nodes : List GameNode) : Option GameNode :=
  nearestEligibleAux headingAvailable headingDeg pos nodes none none

/-- `activeNode` from `src/App.tsx` lines 779-785: the nearby node reported
to the UI, found with `nodes.find` (first match in list order). -/
noncomputable def activeNode (s : Session) : Option GameNode :=
  match s.currentPos with
  | none => none
  | some pos => findEligibleNode s.headingAvailable s.heading pos s.nodes

/-- `startCapture` from `src/App.tsx` lines 611-637: guarded on
`CAPTURE_READY` and a position, binds the first eligible node and starts the
capture interval. -/
noncomputable def startCapture (now : ℕ) (s : Session) : Session :=
  if s.gameState ≠ GameState.CAPTURE_READY then s
  else
    match s.currentPos with
    | none => s
    | some pos =>
      match findEligibleNode s.headingAvailable s.heading pos s.nodes with
      | none => s
      | some target =>
        { s with
          capturingId := some target.id
          gameState := GameState.CAPTURING
          captureTimer := some ⟨target, now, getCaptureDurationMs target.tier⟩ }

/-- `cancelCapture` from `src/App.tsx` lines 639-647: clears the capture
interval, discards progress, returns to `CAPTURE_READY`. -/
def cancelCapture (s : Session) : Session :=
  { s with
    captureTimer := none
    capturingId := none
    captureProgress := 0
    gameState := GameState.CAPTURE_READY }

/-- `completeCapture` from `src/App.tsx` lines 649-682, with `Date.now()` and
the two `Math.random()` draws of the companion offset passed explicitly.
Note that the function performs NO check that `node` is still uncaptured:
it unconditionally awards a companion, a reward record and a
`rewardsCollected` increment. -/
noncomputable def completeCapture (now : ℕ) (r1 r2 : ℝ) (s : Session) (node : GameNode) :
    Session :=
  { s with
    captureTimer := none
    nodes := s.nodes.map (fun n => if n.id = node.id then { n with captured := true } else n)
    companions := s.companions ++
      [{ id := "comp_" ++ toString now
         tier := node.tier
         offset :=
           (Real.sin ((r1 - 0.5) * Real.pi * 1.2) *
              (COMPANION_DISTANCE_MIN + r2 * (COMPANION_DISTANCE_MAX - COMPANION_DISTANCE_MIN)),
            0,
            -Real.cos ((r1 - 0.5) * Real.pi * 1.2) *
              (COMPANION_DISTANCE_MIN + r2 * (COMPANION_DISTANCE_MAX - COMPANION_DISTANCE_MIN))) }]
    rewardLog := s.rewardLog ++ [{ id := node.id, type := node.type, tier := node.tier }]
    stats := { s.stats with rewardsCollected := s.stats.rewardsCollected + 1 }
    capturingId := none
    captureProgress := 0
    gameState := GameState.CARRYING
    message := "Entity Stabilized"
    reticlePulseKey := s.reticlePulseKey + 1
    pendingCarry := true }

/-- The 400 ms timeout scheduled at the end of `completeCapture`
(lines 677-681): advances `CARRYING` to `OUTDOOR_SEARCH`, guarded on the
phase still being `CARRYING`. -/
def carryFire (s : Session) : Session :=
  if s.pendingCarry then
    { s with
      pendingCarry := false
      gameState := if s.gameState = GameState.CARRYING then GameState.OUTDOOR_SEARCH
        else s.gameState }
  else s

/-- `handleEvacuate` from `src/App.tsx` lines 684-694: unconditionally enters
`EVAC_ANIM`, records the evac start time and schedules the anonymous
`EVAC_DURATION_MS` timeout that will set `RESULT`.  There is no guard on the
companion list. -/
def handleEvacuate (now : ℕ) (s : Session) : Session :=
  { s with
    gameState := GameState.EVAC_ANIM
    message := "Evacuation Sequence Initiated"
    reticlePulseKey := s.reticlePulseKey + 1
    evacStartTime := some now
    pendingEvac := true }

/-- The anonymous timeout scheduled by `handleEvacuate` (lines 691-693): its
callback runs `setGameState(RESULT)` unconditionally. -/
def evacFire (s : Session) : Session :=
  if s.pendingEvac then { s with pendingEvac := false, gameState := GameState.RESULT } else s

/-- `handleReset` from `src/App.tsx` lines 733-776.  It clears the capture
interval (`captureTimerRef`), the geolocation watch, the fake-movement
interval and the camera stream, and zeroes the session state — but the
timeout created by `handleEvacuate` (and the one created by
`completeCapture`) was never stored anywhere, and `App.tsx` contains no
`clearTimeout`, so those pending timeouts survive the reset (`pendingEvac`
and `pendingCarry` are untouched); `dismissEvacUntilRef` is also not
reset. -/
def handleReset (s : Session) : Session :=
  { gameState := GameState.IDLE
    nodes := []
    companions := []
    rewardLog := []
    stats := { startTime := 0, distanceWalked := 0, rewardsCollected := 0, outdoorTimeMs := 0 }
    startPos := none
    currentPos := none
    isDebugMode := false
    isOutdoor := false
    isIndoor := false
    manualOutdoor := false
    manualHome := false
    gpsAccuracy := none
    gpsSpeed := none
    capturingId := none
    captureProgress := 0
    reticlePulseKey := 0
    evacStartTime := none
    heading := 0
    message := "System Offline"
    captureTimer := none
    lastPos := none
    lastSpawnPos := none
    indoorStart := none
    lastOutdoorTick := none
    headingAvailable := false
    watchActive := false
    fakeLoop := false
    dismissEvacUntil := s.dismissEvacUntil
    pendingEvac := s.pendingEvac
    pendingCarry := s.pendingCarry }

/-! ### Node spawning (`src/App.tsx` lines 394-419) -/

/-- The batch size of `spawnNodes` (`src/App.tsx` line 397):
`3 + Math.floor(Math.random() * 4)` with the draw `countRoll ∈ [0,1)`. -/
def spawnCount (countRoll : ℚ) : ℤ := 3 + ⌊countRoll * 4⌋

/-- `spawnNodes` from `src/App.tsx` lines 394-419 (with `USE_FAKE_AR = false`
the spawn radii are `SPAWN_RADIUS_MIN`/`SPAWN_RADIUS_MAX`).  All random
draws are explicit: `countRoll` for the batch size, and per node `i` a type
roll, a tier roll and two position rolls; the reward-model inputs
(`distanceWalked`, duration in minutes, companion count) are the snapshot
read from the refs. -/
noncomputable def spawnNodes (center : Coordinates) (currentHeading : ℝ) (now : ℕ)
    (countRoll : ℚ) (typeRoll tierRoll : ℕ → ℚ) (distRoll biasRoll : ℕ → ℝ)
    (distance durationMin : ℚ) (companionsCount : ℕ) : List GameNode :=
  (List.range (spawnCount countRoll).toNat).map (fun i =>
    { id := "node_" ++ toString now ++ "_" ++ toString i
      type :=
        if typeRoll i < 0.33 then NodeType.JUNCTION
        else if typeRoll i < 0.66 then NodeType.OPEN_SPACE
        else NodeType.EDGE
      tier := rollRewardTier (tierRoll i) distance durationMin companionsCount
      geoPosition :=
        generateRandomNode center currentHeading SPAWN_RADIUS_MIN SPAWN_RADIUS_MAX
          (distRoll i) (biasRoll i)
      position :=
        ((gpsToLocalVector center
            (generateRandomNode center currentHeading SPAWN_RADIUS_MIN SPAWN_RADIUS_MAX
              (distRoll i) (biasRoll i))).1,
         0,
         (gpsToLocalVector center
            (generateRandomNode center currentHeading SPAWN_RADIUS_MIN SPAWN_RADIUS_MAX
              (distRoll i) (biasRoll i))).2.2)
      captured := false
      discovered := false })

/-! ### Concrete sessions and nodes used to evaluate the model -/

/-- A plain post-start session with no nodes and no companions. -/
def baseSession : Session :=
  { gameState := GameState.OUTDOOR_SEARCH
    nodes := []
    companions := []
    rewardLog := []
    stats := { startTime := 0, distanceWalked := 0, rewardsCollected := 0, outdoorTimeMs := 0 }
    message := ""
    capturingId := none
    captureProgress := 0
    reticlePulseKey := 0
    evacStartTime := none
    currentPos := none
    startPos := none
    heading := 0
    headingAvailable := false
    isOutdoor := false
    isIndoor := false
    manualOutdoor := false
    manualHome := false
    isDebugMode := false
    gpsAccuracy := none
    gpsSpeed := none
    lastPos := none
    lastSpawnPos := none
    indoorStart := none
    lastOutdoorTick := none
    dismissEvacUntil := 0
    captureTimer := none
    pendingEvac := false
    pendingCarry := false
    fakeLoop := false
    watchActive := false }

/-- The player position used in the eligibility counterexample. -/
def posZero : Coordinates := ⟨0, 0⟩

/-- A discovered, uncaptured node about 7.8 m due north of `posZero`
(latitude 0.00007°, same longitude): capture-eligible but not the nearest. -/
noncomputable def nodeFar : GameNode :=
  { id := "far"
    type := NodeType.JUNCTION
    tier := RewardTier.BASIC
    geoPosition := ⟨7 / 100000, 0⟩
    position := (0, 0, 0)
    captured := false
    discovered := true }

/-- A discovered, uncaptured node about 2.2 m due north of `posZero`
(latitude 0.00002°, same longitude): the nearest capture-eligible node. -/
noncomputable def nodeNear : GameNode :=
  { id := "near"
    type := NodeType.JUNCTION
    tier := RewardTier.BASIC
    geoPosition := ⟨2 / 100000, 0⟩
    position := (0, 0, 0)
    captured := false
    discovered := true }

/-- A `CAPTURE_READY` session whose node list holds the farther eligible node
first, with no heading fix (reticle bypassed). -/
noncomputable def nearSession : Session :=
  { baseSession with
    gameState := GameState.CAPTURE_READY
    currentPos := some posZero
    nodes := [nodeFar, nodeNear] }

/-- An already-captured node, as `completeCapture` would see it after a stale
capture-completion tick. -/
def nodeDone : GameNode :=
  { id := "A"
    type := NodeType.JUNCTION
    tier := RewardTier.BASIC
    geoPosition := ⟨0, 0⟩
    position := (0, 0, 0)
    captured := true
    discovered := true }

/-- A session that already awarded `nodeDone` once: one companion, one reward
record, one collected reward. -/
def awardedSession : Session :=
  { baseSession with
    gameState := GameState.OUTDOOR_SEARCH
    nodes := [nodeDone]
    companions := [{ id := "comp_1", tier := RewardTier.BASIC, offset := (0, 0, 0) }]
    rewardLog := [{ id := "A", type := NodeType.JUNCTION, tier := RewardTier.BASIC }]
    stats := { startTime := 0, distanceWalked := 0, rewardsCollected := 1, outdoorTimeMs := 0 } }

/-- An `EVAC_READY` session with one companion, about to evacuate. -/
def evacReadySession : Session :=
  { baseSession with
    gameState := GameState.EVAC_READY
    companions := [{ id := "comp_1", tier := RewardTier.BASIC, offset := (0, 0, 0) }] }

/-! ## Helper lemmas about the JS math models -/

theorem jsAtan2_zero_of_pos {x : ℝ} (hx : 0 < x) : jsAtan2 0 x = 0 := by
  rw [jsAtan2, if_pos hx, zero_div, Real.arctan_zero]

theorem jsAtan2_pos_zero {y : ℝ} (hy : 0 < y) : jsAtan2 y 0 = Real.pi / 2 := by
  rw [jsAtan2, if_neg (lt_irrefl 0), if_neg (lt_irrefl 0), if_pos hy]

theorem jsAtan2_sin_cos {θ : ℝ} (h1 : -(Real.pi / 2) < θ) (h2 : θ < Real.pi / 2) :
    jsAtan2 (Real.sin θ) (Real.cos θ) = θ := by
  have hc : 0 < Real.cos θ := Real.cos_pos_of_mem_Ioo ⟨h1, h2⟩
  rw [jsAtan2, if_pos hc, ← Real.tan_eq_sin_div_cos, Real.arctan_tan h1 h2]

theorem cos_jsAtan2_of_pos {y x : ℝ} (hx : 0 < x) :
    Real.cos (jsAtan2 y x) = x / Real.sqrt (x ^ 2 + y ^ 2) := by
  have hsq : (0:ℝ) < x ^ 2 + y ^ 2 := by positivity
  have h1 : 1 + (y / x) ^ 2 = (x ^ 2 + y ^ 2) / x ^ 2 := by
    field_simp
  have h2 : Real.sqrt ((x ^ 2 + y ^ 2) / x ^ 2) = Real.sqrt (x ^ 2 + y ^ 2) / x := by
    rw [Real.sqrt_div hsq.le, Real.sqrt_sq hx.le]
  rw [jsAtan2, if_pos hx, Real.cos_arctan, h1, h2, one_div_div]

theorem sin_jsAtan2_of_pos {y x : ℝ} (hx : 0 < x) :
    Real.sin (jsAtan2 y x) = y / Real.sqrt (x ^ 2 + y ^ 2) := by
  have hsq : (0:ℝ) < x ^ 2 + y ^ 2 := by positivity
  have hs : 0 < Real.sqrt (x ^ 2 + y ^ 2) := Real.sqrt_pos.mpr hsq
  have h1 : 1 + (y / x) ^ 2 = (x ^ 2 + y ^ 2) / x ^ 2 := by
    field_simp
  have h2 : Real.sqrt ((x ^ 2 + y ^ 2) / x ^ 2) = Real.sqrt (x ^ 2 + y ^ 2) / x := by
    rw [Real.sqrt_div hsq.le, Real.sqrt_sq hx.le]
  rw [jsAtan2, if_pos hx, Real.sin_arctan, h1, h2]
  field_simp

theorem jsMod_sub_of_lt {a b : ℝ} (hb : 0 < b) (h1 : b ≤ a) (h2 : a < 2 * b) :
    jsMod a b = a - b := by
  have hd0 : (0:ℝ) ≤ a / b := div_nonneg (le_trans hb.le h1) hb.le
  have h1' : 1 ≤ a / b := (one_le_div hb).mpr h1
  have h2' : a / b < 2 := (div_lt_iff₀ hb).mpr (by linarith)
  have hfl : ⌊a / b⌋ = 1 := by
    rw [Int.floor_eq_iff]
    constructor
    · push_cast; linarith
    · push_cast; linarith
  rw [jsMod, jsTrunc, if_pos hd0, hfl]
  push_cast
  ring

theorem deg2rad_inv (x : ℝ) : deg2rad (x * 180 / Real.pi) = x := by
  rw [deg2rad]
  field_simp

theorem deg2rad_zero : deg2rad 0 = 0 := by
  rw [deg2rad]; ring

theorem deg2rad_sub (a b : ℝ) : deg2rad (a - b) = deg2rad a - deg2rad b := by
  rw [deg2rad, deg2rad, deg2rad]; ring

theorem sin_half_mul_self (t : ℝ) :
    Real.sin (t / 2) * Real.sin (t / 2) = (1 - Real.cos t) / 2 := by
  have h := Real.sin_sq_eq_half_sub (t / 2)
  rw [show 2 * (t / 2) = t from by ring] at h
  nlinarith [h]

/-! ## Helper lemmas about the geo math -/

/-- The haversine distance between two points on the same meridian is the
Earth radius times the latitude difference in radians (for differences below
180 degrees). -/
theorem dist_same_longitude (p q : Coordinates) (hlon : q.longitude = p.longitude)
    (h0 : 0 ≤ deg2rad (q.latitude - p.latitude))
    (h1 : deg2rad (q.latitude - p.latitude) < Real.pi) :
    getDistanceFromLatLonInMeters p q = 6371000 * deg2rad (q.latitude - p.latitude) := by
  set t := deg2rad (q.latitude - p.latitude) with ht
  have hlonz : deg2rad (q.longitude - p.longitude) = 0 := by
    rw [hlon, sub_self, deg2rad_zero]
  have hhav : haversineTerm p q = Real.sin (t / 2) * Real.sin (t / 2) := by
    rw [haversineTerm, hlonz, ← ht]
    norm_num
  have hs0 : 0 ≤ Real.sin (t / 2) :=
    Real.sin_nonneg_of_nonneg_of_le_pi (by linarith) (by linarith [Real.pi_pos])
  have hc0 : 0 ≤ Real.cos (t / 2) := by
    apply Real.cos_nonneg_of_mem_Icc
    constructor
    · linarith [Real.pi_pos]
    · linarith
  have hsqrt1 : Real.sqrt (haversineTerm p q) = Real.sin (t / 2) := by
    rw [hhav, ← pow_two, Real.sqrt_sq hs0]
  have hsqrt2 : Real.sqrt (1 - haversineTerm p q) = Real.cos (t / 2) := by
    have : 1 - haversineTerm p q = Real.cos (t / 2) * Real.cos (t / 2) := by
      rw [hhav]
      nlinarith [Real.sin_sq_add_cos_sq (t / 2)]
    rw [this, ← pow_two, Real.sqrt_sq hc0]
  have hatan : jsAtan2 (Real.sin (t / 2)) (Real.cos (t / 2)) = t / 2 := by
    apply jsAtan2_sin_cos
    · linarith [Real.pi_pos]
    · linarith
  rw [getDistanceFromLatLonInMeters, hsqrt1, hsqrt2, hatan, EARTH_RADIUS_KM]
  ring

/-- The haversine distance from a point to itself is zero. -/
theorem dist_self (p : Coordinates) : getDistanceFromLatLonInMeters p p = 0 := by
  have h := dist_same_longitude p p rfl
  rw [sub_self, deg2rad_zero] at h
  simpa using h (le_refl 0) Real.pi_pos

/-- `movePoint` with bearing 0 moves due north: it adds the angular distance
to the latitude and keeps the longitude. -/
theorem movePoint_bearing_zero (lat lon d : ℝ)
    (h1 : -(Real.pi / 2) < deg2rad lat)
    (h2 : deg2rad lat + d / 1000 / EARTH_RADIUS_KM < Real.pi / 2)
    (h3 : 0 < d) :
    movePoint ⟨lat, lon⟩ d 0 =
      ⟨(deg2rad lat + d / 1000 / EARTH_RADIUS_KM) * 180 / Real.pi, lon⟩ := by
  have hδ0 : 0 < d / 1000 / EARTH_RADIUS_KM := by
    rw [EARTH_RADIUS_KM]; positivity
  have hlat : movePointLatRad ⟨lat, lon⟩ d 0 = deg2rad lat + d / 1000 / EARTH_RADIUS_KM := by
    rw [movePointLatRad]
    set φ := deg2rad lat
    set δ := d / 1000 / EARTH_RADIUS_KM
    rw [deg2rad_zero, Real.cos_zero]
    have harg : Real.sin φ * Real.cos δ + Real.cos φ * Real.sin δ * 1 = Real.sin (φ + δ) := by
      rw [Real.sin_add]; ring
    rw [harg]
    exact Real.arcsin_sin (by linarith) (by linarith)
  have hlon' : movePointLonRad ⟨lat, lon⟩ d 0 = deg2rad lon := by
    rw [movePointLonRad, hlat]
    set φ := deg2rad lat
    set δ := d / 1000 / EARTH_RADIUS_KM
    have hcosφ : 0 < Real.cos φ := Real.cos_pos_of_mem_Ioo ⟨h1, by linarith⟩
    have hcosφδ : 0 < Real.cos (φ + δ) := Real.cos_pos_of_mem_Ioo ⟨by linarith, h2⟩
    rw [deg2rad_zero, Real.sin_zero]
    have hx : Real.cos δ - Real.sin φ * Real.sin (φ + δ) = Real.cos φ * Real.cos (φ + δ) := by
      have h := Real.cos_sub (φ + δ) φ
      rw [show φ + δ - φ = δ from by ring] at h
      linear_combination h
    rw [show (0:ℝ) * Real.sin δ * Real.cos φ = 0 from by ring, hx,
      jsAtan2_zero_of_pos (by positivity)]
    ring
  rw [movePoint, hlat, hlon']
  congr 1
  rw [deg2rad]
  field_simp

/-- Projecting the destination of a due-north `movePoint` back into the local
frame yields exactly `(0, 0, -d)`: bearing 0 maps to the negative Z axis. -/
theorem localVector_north (lat lon d : ℝ)
    (h1 : -(Real.pi / 2) < deg2rad lat)
    (h2 : deg2rad lat + d / 1000 / EARTH_RADIUS_KM < Real.pi / 2)
    (h3 : 0 < d) :
    gpsToLocalVector ⟨lat, lon⟩ (movePoint ⟨lat, lon⟩ d 0) = (0, 0, -d) := by
  have hδ0 : 0 < d / 1000 / EARTH_RADIUS_KM := by
    rw [EARTH_RADIUS_KM]; positivity
  have hδπ : d / 1000 / EARTH_RADIUS_KM < Real.pi := by linarith
  rw [movePoint_bearing_zero lat lon d h1 h2 h3]
  have hdlat : deg2rad ((deg2rad lat + d / 1000 / EARTH_RADIUS_KM) * 180 / Real.pi - lat) =
      d / 1000 / EARTH_RADIUS_KM := by
    rw [deg2rad_sub, deg2rad_inv]
    ring
  have hdist :
      getDistanceFromLatLonInMeters ⟨lat, lon⟩
        ⟨(deg2rad lat + d / 1000 / EARTH_RADIUS_KM) * 180 / Real.pi, lon⟩ = d := by
    have h := dist_same_longitude ⟨lat, lon⟩
      ⟨(deg2rad lat + d / 1000 / EARTH_RADIUS_KM) * 180 / Real.pi, lon⟩ rfl
      (by show 0 ≤ deg2rad _; rw [hdlat]; exact hδ0.le)
      (by show deg2rad _ < _; rw [hdlat]; exact hδπ)
    rw [h]
    show 6371000 * deg2rad ((deg2rad lat + d / 1000 / EARTH_RADIUS_KM) * 180 / Real.pi - lat) = d
    rw [hdlat, EARTH_RADIUS_KM]
    ring
  have hby : bearingY ⟨lat, lon⟩
      ⟨(deg2rad lat + d / 1000 / EARTH_RADIUS_KM) * 180 / Real.pi, lon⟩ = 0 := by
    rw [bearingY]
    show Real.sin (deg2rad lon - deg2rad lon) * _ = 0
    rw [sub_self, Real.sin_zero, zero_mul]
  have hbx : bearingX ⟨lat, lon⟩
      ⟨(deg2rad lat + d / 1000 / EARTH_RADIUS_KM) * 180 / Real.pi, lon⟩ =
      Real.sin (d / 1000 / EARTH_RADIUS_KM) := by
    rw [bearingX]
    show Real.cos (deg2rad lat) * Real.sin (deg2rad ((deg2rad lat + d / 1000 / EARTH_RADIUS_KM) * 180 / Real.pi)) -
        Real.sin (deg2rad lat) * Real.cos (deg2rad ((deg2rad lat + d / 1000 / EARTH_RADIUS_KM) * 180 / Real.pi)) *
          Real.cos (deg2rad lon - deg2rad lon) = _
    rw [deg2rad_inv, sub_self, Real.cos_zero]
    have h := Real.sin_sub (deg2rad lat + d / 1000 / EARTH_RADIUS_KM) (deg2rad lat)
    rw [show deg2rad lat + d / 1000 / EARTH_RADIUS_KM - deg2rad lat =
      d / 1000 / EARTH_RADIUS_KM from by ring] at h
    linear_combination -h
  have hsinδ : 0 < Real.sin (d / 1000 / EARTH_RADIUS_KM) :=
    Real.sin_pos_of_pos_of_lt_pi hδ0 hδπ
  have hbear : getBearing ⟨lat, lon⟩
      ⟨(deg2rad lat + d / 1000 / EARTH_RADIUS_KM) * 180 / Real.pi, lon⟩ = 0 := by
    rw [getBearing, hby, hbx, jsAtan2_zero_of_pos hsinδ,
      show (0:ℝ) * 180 / Real.pi + 360 = 360 from by ring,
      jsMod_sub_of_lt (show (0:ℝ) < 360 by norm_num) (le_refl 360) (by norm_num)]
    norm_num
  rw [gpsToLocalVector, hbear, hdist, deg2rad_zero, Real.sin_zero, Real.cos_zero]
  norm_num

theorem coord_lat (a b : ℝ) : (⟨a, b⟩ : Coordinates).latitude = a := rfl

theorem coord_lon (a b : ℝ) : (⟨a, b⟩ : Coordinates).longitude = b := rfl

set_option maxHeartbeats 1000000 in
/-- Projecting the destination of a due-east `movePoint` back into the local
frame yields exactly `(d, 0, 0)`: bearing 90 maps to the positive X axis. -/
theorem localVector_east (lat lon d : ℝ)
    (h1 : -(Real.pi / 2) < deg2rad lat)
    (h5 : deg2rad lat < Real.pi / 2)
    (h3 : 0 < d)
    (h6 : d / 1000 / EARTH_RADIUS_KM < Real.pi / 2) :
    gpsToLocalVector ⟨lat, lon⟩ (movePoint ⟨lat, lon⟩ d 90) = (d, 0, 0) := by
  have hpi := Real.pi_pos
  have hδ0 : 0 < d / 1000 / EARTH_RADIUS_KM := by
    rw [EARTH_RADIUS_KM]; positivity
  obtain ⟨A, hA⟩ : ∃ x, x = deg2rad lat := ⟨_, rfl⟩
  obtain ⟨B, hB⟩ : ∃ x, x = d / 1000 / EARTH_RADIUS_KM := ⟨_, rfl⟩
  rw [← hA] at h1 h5
  rw [← hB] at h6 hδ0
  have hc : 0 < Real.cos A := Real.cos_pos_of_mem_Ioo ⟨h1, h5⟩
  have hcB : 0 < Real.cos B := Real.cos_pos_of_mem_Ioo ⟨by linarith, h6⟩
  have hsB : 0 < Real.sin B := Real.sin_pos_of_pos_of_lt_pi hδ0 (by linarith)
  have hb1 : -1 ≤ Real.sin A * Real.cos B := by
    nlinarith [Real.neg_one_le_sin A, Real.sin_le_one A, Real.neg_one_le_cos B,
      Real.cos_le_one B]
  have hb2 : Real.sin A * Real.cos B ≤ 1 := by
    nlinarith [Real.neg_one_le_sin A, Real.sin_le_one A, Real.neg_one_le_cos B,
      Real.cos_le_one B]
  obtain ⟨P2, hP2⟩ : ∃ x, x = Real.arcsin (Real.sin A * Real.cos B) := ⟨_, rfl⟩
  have hsin2 : Real.sin P2 = Real.sin A * Real.cos B := by
    rw [hP2]; exact Real.sin_arcsin hb1 hb2
  have hcos2 : Real.cos P2 = Real.sqrt (1 - (Real.sin A * Real.cos B) ^ 2) := by
    rw [hP2]; exact Real.cos_arcsin _
  have key : 1 - (Real.sin A * Real.cos B) ^ 2 =
      Real.cos A ^ 2 + (Real.sin A * Real.sin B) ^ 2 := by
    linear_combination (-1 : ℝ) * Real.sin_sq_add_cos_sq A -
      (Real.sin A ^ 2) * Real.sin_sq_add_cos_sq B
  have hcos2pos : 0 < Real.cos P2 := by
    rw [hcos2]
    apply Real.sqrt_pos.mpr
    rw [key]
    linarith [pow_pos hc 2, sq_nonneg (Real.sin A * Real.sin B)]
  have hcos2sq : Real.cos P2 ^ 2 = 1 - (Real.sin A * Real.cos B) ^ 2 := by
    rw [hcos2]
    apply Real.sq_sqrt
    rw [key]
    positivity
  have h90 : deg2rad 90 = Real.pi / 2 := by rw [deg2rad]; ring
  have hlat2 : movePointLatRad ⟨lat, lon⟩ d 90 = P2 := by
    rw [movePointLatRad, hP2]
    congr 1
    rw [coord_lat, ← hA, ← hB, h90, Real.cos_pi_div_two]
    ring
  obtain ⟨D, hD⟩ : ∃ x, x = jsAtan2 (Real.sin B * Real.cos A) (Real.cos B * Real.cos A ^ 2) :=
    ⟨_, rfl⟩
  have hxpos : 0 < Real.cos B * Real.cos A ^ 2 := mul_pos hcB (pow_pos hc 2)
  have hlon2 : movePointLonRad ⟨lat, lon⟩ d 90 = deg2rad lon + D := by
    rw [movePointLonRad, hlat2, coord_lat, coord_lon, ← hA, ← hB, h90, Real.sin_pi_div_two, hD]
    have hyarg : 1 * Real.sin B * Real.cos A = Real.sin B * Real.cos A := by ring
    have hxarg : Real.cos B - Real.sin A * Real.sin P2 = Real.cos B * Real.cos A ^ 2 := by
      rw [hsin2]
      linear_combination (-(Real.cos B)) * Real.sin_sq_add_cos_sq A
    rw [hyarg, hxarg]
  have hR2 : (Real.cos B * Real.cos A ^ 2) ^ 2 + (Real.sin B * Real.cos A) ^ 2 =
      (Real.cos A * Real.cos P2) ^ 2 := by
    linear_combination (-(Real.cos A ^ 2)) * hcos2sq +
      (Real.cos A ^ 2 * Real.cos B ^ 2) * Real.sin_sq_add_cos_sq A +
      (Real.cos A ^ 2) * Real.sin_sq_add_cos_sq B
  have hRpos : 0 < Real.cos A * Real.cos P2 := mul_pos hc hcos2pos
  have hsqrtR :
      Real.sqrt ((Real.cos B * Real.cos A ^ 2) ^ 2 + (Real.sin B * Real.cos A) ^ 2) =
        Real.cos A * Real.cos P2 := by
    rw [hR2, Real.sqrt_sq hRpos.le]
  have hsinD : Real.sin D = Real.sin B * Real.cos A / (Real.cos A * Real.cos P2) := by
    rw [hD, sin_jsAtan2_of_pos hxpos, hsqrtR]
  have hcosD : Real.cos D = Real.cos B * Real.cos A ^ 2 / (Real.cos A * Real.cos P2) := by
    rw [hD, cos_jsAtan2_of_pos hxpos, hsqrtR]
  have hdest : movePoint ⟨lat, lon⟩ d 90 =
      ⟨P2 * 180 / Real.pi, (deg2rad lon + D) * 180 / Real.pi⟩ := by
    rw [movePoint, hlat2, hlon2]
  rw [hdest]
  have hdlat : deg2rad (P2 * 180 / Real.pi - lat) = P2 - A := by
    rw [deg2rad_sub, deg2rad_inv, hA]
  have hdlon : deg2rad ((deg2rad lon + D) * 180 / Real.pi - lon) = D := by
    rw [deg2rad_sub, deg2rad_inv]
    ring
  have hphl : deg2rad (P2 * 180 / Real.pi) = P2 := deg2rad_inv P2
  have hhav : haversineTerm ⟨lat, lon⟩ ⟨P2 * 180 / Real.pi, (deg2rad lon + D) * 180 / Real.pi⟩ =
      Real.sin (B / 2) * Real.sin (B / 2) := by
    rw [haversineTerm, coord_lat, coord_lat, coord_lon, coord_lon, hdlat, hdlon, hphl, ← hA]
    have e1 := sin_half_mul_self (P2 - A)
    have e2 := sin_half_mul_self D
    have e3 := sin_half_mul_self B
    have e4 := Real.cos_sub P2 A
    have e5 : Real.cos A * Real.cos P2 * Real.cos D = Real.cos B * Real.cos A ^ 2 := by
      rw [hcosD]
      field_simp
    linear_combination e1 + (Real.cos A * Real.cos P2) * e2 - e3 - (1 / 2 : ℝ) * e4 -
      (Real.sin A / 2) * hsin2 - (1 / 2 : ℝ) * e5 -
      (Real.cos B / 2) * Real.sin_sq_add_cos_sq A
  have hsB2 : 0 ≤ Real.sin (B / 2) :=
    Real.sin_nonneg_of_nonneg_of_le_pi (by linarith) (by linarith)
  have hcB2 : 0 ≤ Real.cos (B / 2) := by
    apply Real.cos_nonneg_of_mem_Icc
    constructor
    · linarith
    · linarith
  have hsqrt1 : Real.sqrt (haversineTerm ⟨lat, lon⟩
      ⟨P2 * 180 / Real.pi, (deg2rad lon + D) * 180 / Real.pi⟩) = Real.sin (B / 2) := by
    rw [hhav, ← pow_two, Real.sqrt_sq hsB2]
  have hsqrt2 : Real.sqrt (1 - haversineTerm ⟨lat, lon⟩
      ⟨P2 * 180 / Real.pi, (deg2rad lon + D) * 180 / Real.pi⟩) = Real.cos (B / 2) := by
    have hstep : 1 - haversineTerm ⟨lat, lon⟩
        ⟨P2 * 180 / Real.pi, (deg2rad lon + D) * 180 / Real.pi⟩ =
        Real.cos (B / 2) * Real.cos (B / 2) := by
      rw [hhav]
      linear_combination (-1 : ℝ) * Real.sin_sq_add_cos_sq (B / 2)
    rw [hstep, ← pow_two, Real.sqrt_sq hcB2]
  have hdistE : getDistanceFromLatLonInMeters ⟨lat, lon⟩
      ⟨P2 * 180 / Real.pi, (deg2rad lon + D) * 180 / Real.pi⟩ = d := by
    rw [getDistanceFromLatLonInMeters, hsqrt1, hsqrt2,
      jsAtan2_sin_cos (by linarith) (by linarith)]
    rw [hB, EARTH_RADIUS_KM]
    field_simp
    ring
  have hbyE : bearingY ⟨lat, lon⟩
      ⟨P2 * 180 / Real.pi, (deg2rad lon + D) * 180 / Real.pi⟩ = Real.sin B := by
    rw [bearingY, coord_lat, coord_lon, coord_lon, deg2rad_inv (deg2rad lon + D), hphl,
      show deg2rad lon + D - deg2rad lon = D from by ring, hsinD]
    field_simp
    ring
  have hbxE : bearingX ⟨lat, lon⟩
      ⟨P2 * 180 / Real.pi, (deg2rad lon + D) * 180 / Real.pi⟩ = 0 := by
    rw [bearingX, coord_lat, coord_lat, coord_lon, coord_lon, deg2rad_inv (deg2rad lon + D),
      hphl, ← hA, show deg2rad lon + D - deg2rad lon = D from by ring, hsin2, hcosD]
    field_simp
    ring
  have hbearE : getBearing ⟨lat, lon⟩
      ⟨P2 * 180 / Real.pi, (deg2rad lon + D) * 180 / Real.pi⟩ = 90 := by
    rw [getBearing, hbyE, hbxE, jsAtan2_pos_zero hsB,
      show Real.pi / 2 * 180 / Real.pi + 360 = 90 + 360 from by field_simp; ring,
      jsMod_sub_of_lt (show (0:ℝ) < 360 by norm_num) (by norm_num) (by norm_num)]
    norm_num
  rw [gpsToLocalVector, hbearE, hdistE, h90, Real.sin_pi_div_two, Real.cos_pi_div_two]
  norm_num

/-! ## Claim theorems -/

/-- C9: for every (non-polar) origin coordinate, composing the forward
projection with the geo-to-local conversion preserves the local-frame
convention: `geoToLocal(origin, destinationPoint(origin, 50, 0))` yields
`(x = 0, z = -50)` and `geoToLocal(origin, destinationPoint(origin, 50, 90))`
yields `(x = 50, z = 0)` — bearing 0° maps to −Z (north) and bearing 90° to
+X (east).  In the real-number model the equalities are exact. -/
theorem c9_local_frame_convention (lat lon : ℝ)
    (h1 : -(Real.pi / 2) < deg2rad lat)
    (h2 : deg2rad lat + 50 / 1000 / EARTH_RADIUS_KM < Real.pi / 2) :
    gpsToLocalVector ⟨lat, lon⟩ (movePoint ⟨lat, lon⟩ 50 0) = (0, 0, -50) ∧
    gpsToLocalVector ⟨lat, lon⟩ (movePoint ⟨lat, lon⟩ 50 90) = (50, 0, 0) := by
  have h50 : (0:ℝ) < 50 := by norm_num
  have hδpos : (0:ℝ) < 50 / 1000 / EARTH_RADIUS_KM := by
    rw [EARTH_RADIUS_KM]; norm_num
  have hδsmall : (50:ℝ) / 1000 / EARTH_RADIUS_KM < Real.pi / 2 := by
    rw [EARTH_RADIUS_KM]
    nlinarith [Real.pi_gt_d6]
  have h5 : deg2rad lat < Real.pi / 2 := by linarith
  exact ⟨localVector_north lat lon 50 h1 h2 h50,
    localVector_east lat lon 50 h1 h5 h50 hδsmall⟩

/-- Witness for C9 at the origin `(0, 0)`. -/
theorem c9_witness :
    gpsToLocalVector ⟨0, 0⟩ (movePoint ⟨0, 0⟩ 50 0) = (0, 0, -50) ∧
    gpsToLocalVector ⟨0, 0⟩ (movePoint ⟨0, 0⟩ 50 90) = (50, 0, 0) := by
  apply c9_local_frame_convention
  · rw [deg2rad_zero]
    linarith [Real.pi_pos]
  · rw [deg2rad_zero, EARTH_RADIUS_KM]
    nlinarith [Real.pi_gt_d6]

/-! ## Reward-model lemmas (C8) -/

theorem ite_le_ite_of_imp {p q : Prop} [Decidable p] [Decidable q] {c : ℚ} (hc : 0 ≤ c)
    (h : p → q) : (if p then c else 0) ≤ (if q then c else 0) := by
  split_ifs with h1 h2
  · exact le_refl c
  · exact absurd (h h1) h2
  · exact hc
  · exact le_refl 0

theorem advancedWeight_le (d u : ℚ) (k : ℕ) : advancedWeight d u k ≤ 0.6 :=
  min_le_right _ _

theorem advancedWeight_nonneg (d u : ℚ) (k : ℕ) : 0 ≤ advancedWeight d u k := by
  unfold advancedWeight
  apply le_min
  · split_ifs <;> norm_num
  · norm_num

theorem coreWeight_le (d u : ℚ) (k : ℕ) : coreWeight d u k ≤ 0.3 :=
  min_le_right _ _

theorem coreWeight_nonneg (d u : ℚ) (k : ℕ) : 0 ≤ coreWeight d u k := by
  unfold coreWeight
  apply le_min
  · split_ifs <;> norm_num
  · norm_num

/-- The core weight can never exceed its raw maximum 0.05 + 3 × 0.05. -/
theorem coreWeight_le_02 (d u : ℚ) (k : ℕ) : coreWeight d u k ≤ 0.2 := by
  unfold coreWeight
  apply le_trans (min_le_left _ _)
  split_ifs <;> norm_num

/-- Basic always absorbs the exact remainder: the floor 0.1 never binds. -/
theorem basicWeight_eq (d u : ℚ) (k : ℕ) :
    basicWeight d u k = 1 - advancedWeight d u k - coreWeight d u k := by
  unfold basicWeight
  apply max_eq_right
  have h1 := advancedWeight_le d u k
  have h2 := coreWeight_le_02 d u k
  have h1' : (0.6:ℚ) = 3/5 := by norm_num
  linarith

theorem advancedWeight_mono_dist {d1 d2 : ℚ} (u : ℚ) (k : ℕ) (h : d1 ≤ d2) :
    advancedWeight d1 u k ≤ advancedWeight d2 u k := by
  unfold advancedWeight
  apply min_le_min _ (le_refl _)
  have t1 : (if 200 < d1 then (0.1:ℚ) else 0) ≤ (if 200 < d2 then (0.1:ℚ) else 0) :=
    ite_le_ite_of_imp (by norm_num) (fun h1 => lt_of_lt_of_le h1 h)
  have t2 : (if 600 < d1 then (0.1:ℚ) else 0) ≤ (if 600 < d2 then (0.1:ℚ) else 0) :=
    ite_le_ite_of_imp (by norm_num) (fun h1 => lt_of_lt_of_le h1 h)
  linarith

theorem coreWeight_mono_dist {d1 d2 : ℚ} (u : ℚ) (k : ℕ) (h : d1 ≤ d2) :
    coreWeight d1 u k ≤ coreWeight d2 u k := by
  unfold coreWeight
  apply min_le_min _ (le_refl _)
  have t1 : (if 600 < d1 then (0.05:ℚ) else 0) ≤ (if 600 < d2 then (0.05:ℚ) else 0) :=
    ite_le_ite_of_imp (by norm_num) (fun h1 => lt_of_lt_of_le h1 h)
  linarith

theorem advancedWeight_mono_dur (d : ℚ) {u1 u2 : ℚ} (k : ℕ) (h : u1 ≤ u2) :
    advancedWeight d u1 k ≤ advancedWeight d u2 k := by
  unfold advancedWeight
  apply min_le_min _ (le_refl _)
  have t1 : (if 5 < u1 then (0.1:ℚ) else 0) ≤ (if 5 < u2 then (0.1:ℚ) else 0) :=
    ite_le_ite_of_imp (by norm_num) (fun h1 => lt_of_lt_of_le h1 h)
  linarith

theorem coreWeight_mono_dur (d : ℚ) {u1 u2 : ℚ} (k : ℕ) (h : u1 ≤ u2) :
    coreWeight d u1 k ≤ coreWeight d u2 k := by
  unfold coreWeight
  apply min_le_min _ (le_refl _)
  have t1 : (if 10 < u1 then (0.05:ℚ) else 0) ≤ (if 10 < u2 then (0.05:ℚ) else 0) :=
    ite_le_ite_of_imp (by norm_num) (fun h1 => lt_of_lt_of_le h1 h)
  linarith

theorem advancedWeight_mono_comp (d u : ℚ) {k1 k2 : ℕ} (h : k1 ≤ k2) :
    advancedWeight d u k1 ≤ advancedWeight d u k2 := by
  unfold advancedWeight
  apply min_le_min _ (le_refl _)
  have t1 : (if 3 ≤ k1 then (0.1:ℚ) else 0) ≤ (if 3 ≤ k2 then (0.1:ℚ) else 0) :=
    ite_le_ite_of_imp (by norm_num) (fun h1 => le_trans h1 h)
  linarith

theorem coreWeight_mono_comp (d u : ℚ) {k1 k2 : ℕ} (h : k1 ≤ k2) :
    coreWeight d u k1 ≤ coreWeight d u k2 := by
  unfold coreWeight
  apply min_le_min _ (le_refl _)
  have t1 : (if 5 ≤ k1 then (0.05:ℚ) else 0) ≤ (if 5 ≤ k2 then (0.05:ℚ) else 0) :=
    ite_le_ite_of_imp (by norm_num) (fun h1 => le_trans h1 h)
  linarith

/-- C8: in every reward-tier roll the three tier probabilities lie in `[0,1]`
and sum to 1, the Advanced weight is clamped to at most 0.6, the Core weight
to at most 0.3, Basic is `max(0.1, 1 − Advanced − Core)`, and increasing
distance walked, elapsed session duration, or companion count (holding the
other two fixed) never decreases the combined Advanced+Core probability
mass. -/
theorem c8_reward_weight_invariants (d u : ℚ) (k : ℕ) :
    (0 ≤ advancedWeight d u k ∧ advancedWeight d u k ≤ 1) ∧
    (0 ≤ coreWeight d u k ∧ coreWeight d u k ≤ 1) ∧
    (0 ≤ basicWeight d u k ∧ basicWeight d u k ≤ 1) ∧
    advancedWeight d u k ≤ 0.6 ∧
    coreWeight d u k ≤ 0.3 ∧
    basicWeight d u k = max 0.1 (1 - advancedWeight d u k - coreWeight d u k) ∧
    advancedWeight d u k + coreWeight d u k + basicWeight d u k = 1 ∧
    (∀ d2, d ≤ d2 →
      advancedWeight d u k + coreWeight d u k ≤ advancedWeight d2 u k + coreWeight d2 u k) ∧
    (∀ u2, u ≤ u2 →
      advancedWeight d u k + coreWeight d u k ≤ advancedWeight d u2 k + coreWeight d u2 k) ∧
    (∀ k2, k ≤ k2 →
      advancedWeight d u k + coreWeight d u k ≤ advancedWeight d u k2 + coreWeight d u k2) := by
  have ha0 := advancedWeight_nonneg d u k
  have ha1 := advancedWeight_le d u k
  have hc0 := coreWeight_nonneg d u k
  have hc1 := coreWeight_le d u k
  have hc2 := coreWeight_le_02 d u k
  have hb := basicWeight_eq d u k
  refine ⟨⟨ha0, by linarith⟩, ⟨hc0, by linarith⟩, ⟨by rw [hb]; linarith, by rw [hb]; linarith⟩,
    ha1, hc1, rfl, by rw [hb]; ring, ?_, ?_, ?_⟩
  · intro d2 hle
    exact add_le_add (advancedWeight_mono_dist u k hle) (coreWeight_mono_dist u k hle)
  · intro u2 hle
    exact add_le_add (advancedWeight_mono_dur d k hle) (coreWeight_mono_dur d k hle)
  · intro k2 hle
    exact add_le_add (advancedWeight_mono_comp d u hle) (coreWeight_mono_comp d u hle)

/-- Witness for C8: evaluation at `(0, 0, 0)` and monotonicity toward
distance 300. -/
theorem c8_witness :
    (advancedWeight 0 0 0 + coreWeight 0 0 0 + basicWeight 0 0 0 = 1) ∧
    advancedWeight 0 0 0 + coreWeight 0 0 0 ≤ advancedWeight 300 0 0 + coreWeight 300 0 0 := by
  obtain ⟨-, -, -, -, -, -, hsum, hmono, -, -⟩ := c8_reward_weight_invariants 0 0 0
  exact ⟨hsum, hmono 300 (by norm_num)⟩

/-! ## Spawn-batch size (C4) -/

/-- C4 (amended): for every draw the spawn-batch size
`3 + Math.floor(Math.random() * 4)` is between 3 and 6 inclusive (not 3-7 as
claimed), every count in 3..6 occurs for some draw, the batch appends exactly
that many nodes, and every appended node starts with `discovered = false` and
`captured = false`. -/
theorem c4_spawn_batch (r : ℚ) (h0 : 0 ≤ r) (h1 : r < 1) :
    (3 ≤ spawnCount r ∧ spawnCount r ≤ 6) ∧
    (∀ c : ℤ, 3 ≤ c → c ≤ 6 → ∃ q : ℚ, 0 ≤ q ∧ q < 1 ∧ spawnCount q = c) ∧
    ∀ center currentHeading now typeRoll tierRoll distRoll biasRoll distance durationMin
        companionsCount,
      (spawnNodes center currentHeading now r typeRoll tierRoll distRoll biasRoll distance
          durationMin companionsCount).length = (spawnCount r).toNat ∧
      ∀ n ∈ spawnNodes center currentHeading now r typeRoll tierRoll distRoll biasRoll distance
          durationMin companionsCount,
        n.discovered = false ∧ n.captured = false := by
  have hlow : 0 ≤ ⌊r * 4⌋ := Int.floor_nonneg.mpr (by positivity)
  have hhigh : ⌊r * 4⌋ < 4 := Int.floor_lt.mpr (by push_cast; linarith)
  refine ⟨⟨?_, ?_⟩, ?_, ?_⟩
  · unfold spawnCount; omega
  · unfold spawnCount; omega
  · intro c h3 h6
    refine ⟨((c : ℚ) - 3) / 4, ?_, ?_, ?_⟩
    · have : (3:ℚ) ≤ (c : ℚ) := by exact_mod_cast h3
      linarith
    · have : (c:ℚ) ≤ 6 := by exact_mod_cast h6
      linarith
    · unfold spawnCount
      rw [show ((c : ℚ) - 3) / 4 * 4 = ((c - 3 : ℤ) : ℚ) from by push_cast; ring,
        Int.floor_intCast]
      omega
  · intro center currentHeading now typeRoll tierRoll distRoll biasRoll distance durationMin
      companionsCount
    constructor
    · rw [spawnNodes, List.length_map, List.length_range]
    · intro n hn
      rw [spawnNodes, List.mem_map] at hn
      obtain ⟨i, -, rfl⟩ := hn
      exact ⟨rfl, rfl⟩

/-- Counterexample for C4 as stated: no draw in `[0, 1)` ever produces a
batch of 7 nodes. -/
theorem c4_count_never_seven : ¬ ∃ r : ℚ, 0 ≤ r ∧ r < 1 ∧ spawnCount r = 7 := by
  rintro ⟨r, h0, h1, h7⟩
  have hhigh : ⌊r * 4⌋ < 4 := Int.floor_lt.mpr (by push_cast; linarith)
  unfold spawnCount at h7
  omega

/-- Witness for C4 at the draw 1/2. -/
theorem c4_witness : 3 ≤ spawnCount (1 / 2) ∧ spawnCount (1 / 2) ≤ 6 :=
  (c4_spawn_batch (1 / 2) (by norm_num) (by norm_num)).1

/-! ## Outdoor detection (C5) -/

/-- C5: for every processed position update, the detected-outdoor signal is
true exactly when the accuracy is non-null, at most `OUTDOOR_ACCURACY_MAX`,
and a heading fix is present or the speed exceeds 0.3 m/s; and the effective
outdoor state is false under `manualHome`, else true under `manualOutdoor`,
else the detected signal.  (`USE_FAKE_AR` is modelled as `false`, so the raw
accuracy/speed readings are used unchanged.) -/
theorem c5_outdoor_detection (accRaw spRaw : Option ℚ) (hAvail hGeo mh mo : Bool) :
    (outdoorDetected (accuracyValueOf accRaw) (hAvail || hGeo) (speedValueOf spRaw) = true ↔
      ∃ a, accRaw = some a ∧ a ≤ OUTDOOR_ACCURACY_MAX ∧
        ((hAvail || hGeo) = true ∨ ∃ sp, spRaw = some sp ∧ (0.3 : ℚ) < sp)) ∧
    (mh = true →
      outdoorActive mh mo
        (outdoorDetected (accuracyValueOf accRaw) (hAvail || hGeo) (speedValueOf spRaw)) =
        false) ∧
    (mh = false → mo = true →
      outdoorActive mh mo
        (outdoorDetected (accuracyValueOf accRaw) (hAvail || hGeo) (speedValueOf spRaw)) =
        true) ∧
    (mh = false → mo = false →
      outdoorActive mh mo
        (outdoorDetected (accuracyValueOf accRaw) (hAvail || hGeo) (speedValueOf spRaw)) =
        outdoorDetected (accuracyValueOf accRaw) (hAvail || hGeo) (speedValueOf spRaw)) := by
  have hacc : accuracyValueOf accRaw = accRaw := by
    simp [accuracyValueOf, USE_FAKE_AR]
  have hsp : speedValueOf spRaw = spRaw := by
    simp [speedValueOf, USE_FAKE_AR]
  refine ⟨?_, ?_, ?_, ?_⟩
  · rw [hacc, hsp]
    cases accRaw with
    | none => simp [outdoorDetected]
    | some a =>
      cases spRaw with
      | none =>
        simp [outdoorDetected]
      | some sp =>
        simp [outdoorDetected]
  · intro h
    simp [outdoorActive, h]
  · intro h1 h2
    simp [outdoorActive, h1, h2]
  · intro h1 h2
    simp [outdoorActive, h1, h2]

/-- Witness for C5: accuracy 10 m with a heading fix detects outdoor, and
`manualHome` still forces the effective state to indoor. -/
theorem c5_witness :
    outdoorDetected (accuracyValueOf (some 10)) (true || false) (speedValueOf none) = true ∧
    outdoorActive true false
      (outdoorDetected (accuracyValueOf (some 10)) (true || false) (speedValueOf none)) =
      false := by
  obtain ⟨hiff, hhome, -, -⟩ := c5_outdoor_detection (some 10) none true false true false
  refine ⟨hiff.mpr ⟨10, rfl, ?_, Or.inl rfl⟩, hhome rfl⟩
  rw [OUTDOOR_ACCURACY_MAX]
  norm_num

/-! ## Indoor debounce (C6) -/

theorem indoorTrace_append (mh : Bool) (s : Option ℕ) (l1 l2 : List (ℕ × Bool)) :
    indoorTrace mh s (l1 ++ l2) =
      indoorTrace mh s l1 ++ indoorTrace mh (indoorFinal mh s l1) l2 := by
  induction l1 generalizing s with
  | nil => rfl
  | cons p rest ih =>
    obtain ⟨now, cand⟩ := p
    simp only [List.cons_append, List.append_eq, indoorTrace, indoorFinal, ih]

theorem indoorFinal_append (mh : Bool) (s : Option ℕ) (l1 l2 : List (ℕ × Bool)) :
    indoorFinal mh s (l1 ++ l2) = indoorFinal mh (indoorFinal mh s l1) l2 := by
  induction l1 generalizing s with
  | nil => rfl
  | cons p rest ih =>
    obtain ⟨now, cand⟩ := p
    simp only [List.cons_append, List.append_eq, indoorFinal, ih]

/-- Over a window of candidate samples, a hold anchored at a nonzero start
time stays anchored and the detected flag at each sample is exactly "the
sample is at least `INDOOR_HOLD_MS` past the anchor". -/
theorem indoorTrace_window (t0 : ℕ) (h0 : t0 ≠ 0) :
    ∀ ws : List (ℕ × Bool), (∀ p ∈ ws, p.2 = true) →
      indoorTrace false (some t0) ws =
        ws.map (fun p => decide (INDOOR_HOLD_MS ≤ p.1 - t0)) ∧
      indoorFinal false (some t0) ws = some t0 := by
  intro ws
  induction ws with
  | nil => intro _; exact ⟨rfl, rfl⟩
  | cons p rest ih =>
    intro hall
    obtain ⟨now, cand⟩ := p
    have hcand : cand = true := hall (now, cand) (by simp)
    subst hcand
    have hstep : indoorStep false (some t0) now true = some t0 := by
      simp [indoorStep, indoorStartNotSet, h0]
    have hrest := ih (fun q hq => hall q (List.mem_cons_of_mem _ hq))
    constructor
    · simp only [indoorTrace, hstep, List.map_cons, hrest.1, indoorDetectedAt, Bool.false_or]
    · simp only [indoorFinal, hstep, hrest.2]

/-- C6 (amended): provided the anchor sample of the window has a nonzero
timestamp, (i) a candidacy window interrupted before spanning
`INDOOR_HOLD_MS` never sets `indoorDetected = true` and the non-candidate
sample resets the hold timer to "not started"; (ii) a window of continuous
candidate samples containing a sample at least `INDOOR_HOLD_MS` after the
anchor does set `indoorDetected = true`.  (At a zero anchor timestamp the JS
zero-falsiness of `!indoorStartRef.current` restarts the hold on every
sample, see the counterexample.) -/
theorem c6_indoor_debounce :
    (∀ (t0 tb : ℕ) (ws : List (ℕ × Bool)), t0 ≠ 0 →
      (∀ p ∈ ws, p.2 = true ∧ p.1 < t0 + INDOOR_HOLD_MS) →
      (∀ b ∈ indoorTrace false none (((t0, true) :: ws) ++ [(tb, false)]), b = false) ∧
      indoorFinal false none (((t0, true) :: ws) ++ [(tb, false)]) = none) ∧
    (∀ (t0 : ℕ) (ws : List (ℕ × Bool)), t0 ≠ 0 → (∀ p ∈ ws, p.2 = true) →
      (∃ p ∈ ws, t0 + INDOOR_HOLD_MS ≤ p.1) →
      true ∈ indoorTrace false none ((t0, true) :: ws)) := by
  have hfirst : ∀ t0 : ℕ, indoorStep false none t0 true = some t0 := by
    intro t0
    simp [indoorStep, indoorStartNotSet]
  have hdet0 : ∀ t0 : ℕ, indoorDetectedAt false (some t0) t0 = false := by
    intro t0
    simp [indoorDetectedAt, INDOOR_HOLD_MS]
  constructor
  · intro t0 tb ws h0 hwin
    have hwindow := indoorTrace_window t0 h0 ws (fun p hp => (hwin p hp).1)
    constructor
    · intro b hb
      rw [List.cons_append, indoorTrace, hfirst, indoorTrace_append, hwindow.1,
        hwindow.2] at hb
      rcases List.mem_cons.mp hb with hhead | htail
      · rw [hhead, hdet0]
      · rcases List.mem_append.mp htail with hmid | hbreak
        · rw [List.mem_map] at hmid
          obtain ⟨p, hp, hval⟩ := hmid
          have hlt := (hwin p hp).2
          rw [← hval, decide_eq_false]
          simp only [INDOOR_HOLD_MS] at hlt ⊢
          omega
        · simp only [indoorTrace, indoorStep, indoorDetectedAt] at hbreak
          simp at hbreak
          rw [hbreak]
    · rw [List.cons_append, indoorFinal, hfirst, indoorFinal_append, hwindow.2]
      simp [indoorFinal, indoorStep]
  · intro t0 ws h0 hall hex
    obtain ⟨p, hp, hpast⟩ := hex
    have hwindow := indoorTrace_window t0 h0 ws hall
    rw [indoorTrace, hfirst, hwindow.1]
    apply List.mem_cons_of_mem
    rw [List.mem_map]
    exact ⟨p, hp, by rw [decide_eq_true_eq]; omega⟩

/-- Counterexample for C6 as stated: with the anchor sample at timestamp 0,
the window `[(0, candidate), (5000, candidate)]` spans exactly
`INDOOR_HOLD_MS` of continuous candidacy, yet `indoorDetected` never becomes
true — the JS falsiness of a stored 0 restarts the hold on every sample. -/
theorem c6_zero_timestamp_cex :
    (∀ p ∈ [((0:ℕ), true), ((5000:ℕ), true)], p.2 = true) ∧
    (0:ℕ) + INDOOR_HOLD_MS ≤ 5000 ∧
    true ∉ indoorTrace false none [(0, true), (5000, true)] := by
  decide

/-- Witness for C6: a short window broken at its second sample stays
undetected and resets the timer; a window spanning the hold duration
detects. -/
theorem c6_witness :
    ((∀ b ∈ indoorTrace false none [((1:ℕ), true), ((2:ℕ), false)], b = false) ∧
      indoorFinal false none [((1:ℕ), true), ((2:ℕ), false)] = none) ∧
    true ∈ indoorTrace false none [((1:ℕ), true), ((5001:ℕ), true)] := by
  constructor
  · exact c6_indoor_debounce.1 1 2 [] (by decide) (by simp)
  · exact c6_indoor_debounce.2 1 [(5001, true)] (by decide) (by decide)
      ⟨(5001, true), by decide, by decide⟩

/-! ## Jitter gate on distance accumulation (C10) -/

/-- C10: a position update whose distance from the last accepted position is
at most 0.5 m contributes nothing to `distanceWalked` and does not advance
the last-accepted-position anchor; consequently every change of
`distanceWalked` in a single update is an increment strictly greater than
0.5 m. -/
theorem c10_jitter_gate (lp : Coordinates) (dist : ℝ) (np : Coordinates) :
    (getDistanceFromLatLonInMeters lp np ≤ 0.5 →
      statsDistanceStep (some lp) dist np = (some lp, dist)) ∧
    ∀ last : Option Coordinates,
      (statsDistanceStep last dist np).2 = dist ∨
        dist + 0.5 < (statsDistanceStep last dist np).2 := by
  constructor
  · intro hle
    simp only [statsDistanceStep]
    rw [if_neg (not_lt.mpr hle)]
  · intro last
    match last with
    | none => exact Or.inl rfl
    | some q =>
      simp only [statsDistanceStep]
      by_cases h : (0.5 : ℝ) < getDistanceFromLatLonInMeters q np
      · right
        rw [if_pos h]
        dsimp only
        linarith
      · left
        rw [if_neg h]

/-- Witness for C10: an update at the very same position (distance 0) leaves
the anchor and the walked distance unchanged. -/
theorem c10_witness :
    statsDistanceStep (some ⟨0, 0⟩) 7 ⟨0, 0⟩ = (some ⟨0, 0⟩, 7) := by
  apply (c10_jitter_gate ⟨0, 0⟩ 7 ⟨0, 0⟩).1
  rw [dist_self]
  norm_num

/-! ## Eligibility search lemmas (C1, C3) -/

theorem findEligibleNode_eq_none (hA : Bool) (hd : ℝ) (pos : Coordinates) :
    ∀ l : List GameNode, (∀ n ∈ l, ¬ captureEligible hA hd pos n) →
      findEligibleNode hA hd pos l = none := by
  intro l
  induction l with
  | nil => intro _; rfl
  | cons n rest ih =>
    intro h
    rw [findEligibleNode, if_neg (h n (List.mem_cons_self n rest))]
    exact ih fun q hq => h q (List.mem_cons_of_mem _ hq)

theorem findEligibleNode_isSome_iff (hA : Bool) (hd : ℝ) (pos : Coordinates) :
    ∀ l : List GameNode,
      (findEligibleNode hA hd pos l).isSome ↔ ∃ n ∈ l, captureEligible hA hd pos n := by
  intro l
  induction l with
  | nil => simp [findEligibleNode]
  | cons n rest ih =>
    rw [findEligibleNode]
    by_cases h : captureEligible hA hd pos n
    · rw [if_pos h]
      simp only [Option.isSome_some, true_iff]
      exact ⟨n, List.mem_cons_self n rest, h⟩
    · rw [if_neg h, ih]
      constructor
      · rintro ⟨q, hq, helig⟩
        exact ⟨q, List.mem_cons_of_mem _ hq, helig⟩
      · rintro ⟨q, hq, helig⟩
        rcases List.mem_cons.mp hq with rfl | hq'
        · exact absurd helig h
        · exact ⟨q, hq', helig⟩

theorem nearestEligibleAux_isSome_of_best (hA : Bool) (hd : ℝ) (pos : Coordinates) :
    ∀ (l : List GameNode) (best : Option GameNode) (m : Option ℝ), best.isSome →
      (nearestEligibleAux hA hd pos l best m).isSome := by
  intro l
  induction l with
  | nil => intro best m h; exact h
  | cons n rest ih =>
    intro best m h
    rw [nearestEligibleAux]
    by_cases hc : n.discovered = true ∧ n.captured = false ∧
        getDistanceFromLatLonInMeters pos n.geoPosition < CAPTURE_RADIUS ∧
        isTargetInReticle hA hd n pos ∧
        ltMinDist (getDistanceFromLatLonInMeters pos n.geoPosition) m
    · rw [if_pos hc]
      exact ih _ _ (Option.isSome_some)
    · rw [if_neg hc]
      exact ih _ _ h

theorem nearestEligibleAux_isSome_elim (hA : Bool) (hd : ℝ) (pos : Coordinates) :
    ∀ (l : List GameNode) (best : Option GameNode) (m : Option ℝ),
      (nearestEligibleAux hA hd pos l best m).isSome →
      best.isSome ∨ ∃ n ∈ l, captureEligible hA hd pos n := by
  intro l
  induction l with
  | nil => intro best m h; exact Or.inl h
  | cons n rest ih =>
    intro best m h
    rw [nearestEligibleAux] at h
    by_cases hc : n.discovered = true ∧ n.captured = false ∧
        getDistanceFromLatLonInMeters pos n.geoPosition < CAPTURE_RADIUS ∧
        isTargetInReticle hA hd n pos ∧
        ltMinDist (getDistanceFromLatLonInMeters pos n.geoPosition) m
    · exact Or.inr ⟨n, List.mem_cons_self n rest, hc.1, hc.2.1, hc.2.2.1, hc.2.2.2.1⟩
    · rw [if_neg hc] at h
      rcases ih _ _ h with hb | ⟨q, hq, helig⟩
      · exact Or.inl hb
      · exact Or.inr ⟨q, List.mem_cons_of_mem _ hq, helig⟩

theorem nearestEligibleAux_isSome_intro (hA : Bool) (hd : ℝ) (pos : Coordinates) :
    ∀ l : List GameNode, (∃ n ∈ l, captureEligible hA hd pos n) →
      (nearestEligibleAux hA hd pos l none none).isSome := by
  intro l
  induction l with
  | nil => rintro ⟨n, hn, -⟩; exact absurd hn (List.not_mem_nil n)
  | cons n rest ih =>
    rintro ⟨q, hq, helig⟩
    rw [nearestEligibleAux]
    by_cases hc : n.discovered = true ∧ n.captured = false ∧
        getDistanceFromLatLonInMeters pos n.geoPosition < CAPTURE_RADIUS ∧
        isTargetInReticle hA hd n pos ∧
        ltMinDist (getDistanceFromLatLonInMeters pos n.geoPosition) (none : Option ℝ)
    · rw [if_pos hc]
      exact nearestEligibleAux_isSome_of_best hA hd pos _ _ _ Option.isSome_some
    · rw [if_neg hc]
      rcases List.mem_cons.mp hq with rfl | hq'
      · exact absurd ⟨helig.1, helig.2.1, helig.2.2.1, helig.2.2.2, trivial⟩ hc
      · exact ih ⟨q, hq', helig⟩

/-! ## Invalid actions are (mostly) no-ops (C1) -/

/-- C1 (amended): `beginCapture()` with no capture-eligible node is a strict
no-op: the session value is returned unchanged.  `evacuate()` however is not
guarded by the companion list: it always moves the phase to `EVAC_ANIM`
(leaving nodes, companions, stats, reward log and capture progress
unchanged), even when the companion list is empty; the empty-companion case
is prevented only upstream, because `EVAC_READY` is entered only when
companions exist. -/
theorem c1_invalid_actions (s : Session) (now : ℕ)
    (hno : ∀ pos n, s.currentPos = some pos → n ∈ s.nodes →
      ¬ captureEligible s.headingAvailable s.heading pos n) :
    startCapture now s = s ∧
    ∀ t, (handleEvacuate t s).gameState = GameState.EVAC_ANIM ∧
      (handleEvacuate t s).nodes = s.nodes ∧
      (handleEvacuate t s).companions = s.companions ∧
      (handleEvacuate t s).stats = s.stats ∧
      (handleEvacuate t s).rewardLog = s.rewardLog ∧
      (handleEvacuate t s).captureProgress = s.captureProgress := by
  constructor
  · rw [startCapture]
    by_cases hg : s.gameState ≠ GameState.CAPTURE_READY
    · rw [if_pos hg]
    · rw [if_neg hg]
      cases hcp : s.currentPos with
      | none => rfl
      | some pos =>
        dsimp only
        rw [findEligibleNode_eq_none _ _ _ _ fun n hn => hno pos n hcp hn]
  · intro t
    exact ⟨rfl, rfl, rfl, rfl, rfl, rfl⟩

/-- Counterexample for C1 as stated: `handleEvacuate` on a session with an
empty companion list changes the phase — it is not a no-op. -/
theorem c1_evacuate_not_noop :
    baseSession.companions = [] ∧
    baseSession.gameState = GameState.OUTDOOR_SEARCH ∧
    (handleEvacuate 0 baseSession).gameState = GameState.EVAC_ANIM :=
  ⟨rfl, rfl, rfl⟩

/-- Witness for C1 on a session with no nodes at all. -/
theorem c1_witness :
    startCapture 0 baseSession = baseSession ∧
    (handleEvacuate 5 baseSession).gameState = GameState.EVAC_ANIM := by
  have h := c1_invalid_actions baseSession 0 (fun pos n _ hn => by simp [baseSession] at hn)
  exact ⟨h.1, (h.2 5).1⟩

/-! ## Reset versus the pending evacuation timeout (C2) -/

/-- C2 (violation demonstrated): `handleReset` clears the capture interval
and the fake-movement interval, but the anonymous `EVAC_DURATION_MS` timeout
created by `handleEvacuate` was never stored and `App.tsx` contains no
`clearTimeout`, so it stays pending across the reset; when it fires it sets
the phase of the freshly-reset session from `IDLE` to `RESULT`. -/
theorem c2_reset_misses_evac_timer :
    (handleReset (handleEvacuate 1000 evacReadySession)).gameState = GameState.IDLE ∧
    (handleReset (handleEvacuate 1000 evacReadySession)).captureTimer = none ∧
    (handleReset (handleEvacuate 1000 evacReadySession)).fakeLoop = false ∧
    (handleReset (handleEvacuate 1000 evacReadySession)).pendingEvac = true ∧
    (evacFire (handleReset (handleEvacuate 1000 evacReadySession))).gameState =
      GameState.RESULT := by
  refine ⟨rfl, rfl, rfl, rfl, ?_⟩
  rfl

/-! ## Capture completion never checks for an already-captured node (C7) -/

/-- C7 (violation demonstrated): cancelling a capture discards progress and
touches no nodes, companions, stats or reward log; but `completeCapture`
performs NO check of `node.captured` — for EVERY session and node, also one
whose `captured` flag is already true (a stale completion tick), it appends
a companion and a reward record and increments `rewardsCollected`, so a
stale tick is double-awarded rather than ignored.  The concrete conjuncts
evaluate the stale tick on `awardedSession`, which already awarded
`nodeDone` once. -/
theorem c7_stale_tick_double_award :
    (∀ s : Session, (cancelCapture s).nodes = s.nodes ∧
      (cancelCapture s).companions = s.companions ∧
      (cancelCapture s).rewardLog = s.rewardLog ∧
      (cancelCapture s).stats = s.stats ∧
      (cancelCapture s).captureProgress = 0 ∧
      (cancelCapture s).gameState = GameState.CAPTURE_READY) ∧
    (∀ (now : ℕ) (r1 r2 : ℝ) (s : Session) (node : GameNode),
      (completeCapture now r1 r2 s node).stats.rewardsCollected =
        s.stats.rewardsCollected + 1 ∧
      (completeCapture now r1 r2 s node).companions.length = s.companions.length + 1 ∧
      (completeCapture now r1 r2 s node).rewardLog.length = s.rewardLog.length + 1) ∧
    nodeDone.captured = true ∧
    (completeCapture 5 0.5 0.5 awardedSession nodeDone).stats.rewardsCollected = 2 ∧
    (completeCapture 5 0.5 0.5 awardedSession nodeDone).companions.length = 2 ∧
    (completeCapture 5 0.5 0.5 awardedSession nodeDone).rewardLog.length = 2 := by
  refine ⟨?_, ?_, rfl, rfl, ?_, ?_⟩
  · intro s
    exact ⟨rfl, rfl, rfl, rfl, rfl, rfl⟩
  · intro now r1 r2 s node
    refine ⟨rfl, ?_, ?_⟩
    · simp [completeCapture]
    · simp [completeCapture]
  · simp [completeCapture, awardedSession]
  · simp [completeCapture, awardedSession]

/-! ## Capture targeting picks the first eligible node, not the nearest (C3) -/

/-- C3 (amended): when several nodes are simultaneously capture-eligible, the
node bound by `beginCapture()` and the node reported as the nearby node are
the FIRST eligible node in node-list order — `nodes.find(...)` — not
necessarily the nearest; the nearest-distance scan of the phase effect only
decides whether a capture-eligible node exists (`CAPTURE_READY` entry), and
an eligible node exists for the scan exactly when `find` locates one. -/
theorem c3_first_eligible_binding (s : Session) (pos : Coordinates) (now : ℕ)
    (hpos : s.currentPos = some pos) :
    activeNode s = findEligibleNode s.headingAvailable s.heading pos s.nodes ∧
    (∀ n, s.gameState = GameState.CAPTURE_READY →
      findEligibleNode s.headingAvailable s.heading pos s.nodes = some n →
      (startCapture now s).capturingId = some n.id ∧
      (startCapture now s).gameState = GameState.CAPTURING) ∧
    ((nearestEligible s.headingAvailable s.heading pos s.nodes).isSome ↔
      (findEligibleNode s.headingAvailable s.heading pos s.nodes).isSome) := by
  refine ⟨?_, ?_, ?_⟩
  · rw [activeNode, hpos]
  · intro n hg hf
    rw [startCapture, if_neg (not_not_intro hg), hpos]
    dsimp only
    rw [hf]
    exact ⟨rfl, rfl⟩
  · constructor
    · intro h
      rcases nearestEligibleAux_isSome_elim s.headingAvailable s.heading pos s.nodes none
          none h with hb | hex
      · exact absurd hb (by simp)
      · exact (findEligibleNode_isSome_iff s.headingAvailable s.heading pos s.nodes).mpr hex
    · intro h
      exact nearestEligibleAux_isSome_intro s.headingAvailable s.heading pos s.nodes
        ((findEligibleNode_isSome_iff s.headingAvailable s.heading pos s.nodes).mp h)

/-- Witness for C3 on a session with a position and no nodes. -/
theorem c3_witness :
    activeNode { baseSession with currentPos := some posZero } = none := by
  have h := (c3_first_eligible_binding { baseSession with currentPos := some posZero }
    posZero 0 rfl).1
  rw [h]
  rfl

/-- Counterexample for C3 as stated: with two simultaneously eligible nodes
`[nodeFar, nodeNear]` (both discovered, uncaptured, within
`CAPTURE_RADIUS`, reticle bypassed), the nearest-eligible scan selects
`nodeNear`, but `beginCapture()` binds and `activeNode` reports `nodeFar`,
the first of the list. -/
theorem c3_not_nearest_cex :
    captureEligible nearSession.headingAvailable nearSession.heading posZero nodeFar ∧
    captureEligible nearSession.headingAvailable nearSession.heading posZero nodeNear ∧
    getDistanceFromLatLonInMeters posZero nodeNear.geoPosition <
      getDistanceFromLatLonInMeters posZero nodeFar.geoPosition ∧
    nearestEligible nearSession.headingAvailable nearSession.heading posZero nearSession.nodes =
      some nodeNear ∧
    (startCapture 0 nearSession).capturingId = some nodeFar.id ∧
    activeNode nearSession = some nodeFar ∧
    nodeFar.id ≠ nodeNear.id := by
  have hpi := Real.pi_pos
  have hdfar : getDistanceFromLatLonInMeters posZero nodeFar.geoPosition =
      6371000 * deg2rad (7 / 100000 - 0) := by
    apply dist_same_longitude posZero nodeFar.geoPosition rfl
    · show (0:ℝ) ≤ deg2rad (7 / 100000 - 0)
      rw [deg2rad]
      positivity
    · show deg2rad (7 / 100000 - 0) < Real.pi
      rw [deg2rad]
      nlinarith
  have hdnear : getDistanceFromLatLonInMeters posZero nodeNear.geoPosition =
      6371000 * deg2rad (2 / 100000 - 0) := by
    apply dist_same_longitude posZero nodeNear.geoPosition rfl
    · show (0:ℝ) ≤ deg2rad (2 / 100000 - 0)
      rw [deg2rad]
      positivity
    · show deg2rad (2 / 100000 - 0) < Real.pi
      rw [deg2rad]
      nlinarith
  have hfar_lt : getDistanceFromLatLonInMeters posZero nodeFar.geoPosition < CAPTURE_RADIUS := by
    rw [hdfar, deg2rad, CAPTURE_RADIUS]
    nlinarith [Real.pi_lt_d2]
  have hnear_lt : getDistanceFromLatLonInMeters posZero nodeNear.geoPosition <
      CAPTURE_RADIUS := by
    rw [hdnear, deg2rad, CAPTURE_RADIUS]
    nlinarith [Real.pi_lt_d2]
  have hcmp : getDistanceFromLatLonInMeters posZero nodeNear.geoPosition <
      getDistanceFromLatLonInMeters posZero nodeFar.geoPosition := by
    rw [hdfar, hdnear, deg2rad, deg2rad]
    nlinarith
  have heligFar : captureEligible nearSession.headingAvailable nearSession.heading posZero
      nodeFar := ⟨rfl, rfl, hfar_lt, Or.inl rfl⟩
  have heligNear : captureEligible nearSession.headingAvailable nearSession.heading posZero
      nodeNear := ⟨rfl, rfl, hnear_lt, Or.inl rfl⟩
  have hfind : findEligibleNode nearSession.headingAvailable nearSession.heading posZero
      nearSession.nodes = some nodeFar := by
    rw [show nearSession.nodes = [nodeFar, nodeNear] from rfl, findEligibleNode,
      if_pos heligFar]
  have hnearest : nearestEligible nearSession.headingAvailable nearSession.heading posZero
      nearSession.nodes = some nodeNear := by
    rw [nearestEligible, show nearSession.nodes = [nodeFar, nodeNear] from rfl,
      nearestEligibleAux, if_pos ⟨rfl, rfl, hfar_lt, Or.inl rfl, trivial⟩,
      nearestEligibleAux, if_pos ⟨rfl, rfl, hnear_lt, Or.inl rfl, hcmp⟩]
    rfl
  refine ⟨heligFar, heligNear, hcmp, hnearest, ?_, ?_, by decide⟩
  · have hgs : ¬ (nearSession.gameState ≠ GameState.CAPTURE_READY) := fun h => h rfl
    rw [startCapture, if_neg hgs, show nearSession.currentPos = some posZero from rfl]
    dsimp only
    rw [hfind]
  · rw [activeNode, show nearSession.currentPos = some posZero from rfl]
    exact hfind

end WebAR
